import Mathlib

/-!
Shallow embedding of the Energy repository (Jon-Webb-79/Energy).

Part 1 models `src/Mix/createDB.py`: the Excel loader `ReadExcel`
(column remapping and numeric coercion) and the database updater
`UpdateSQLite` (drop / create / insert against a SQLite store).

Part 2 models `src/MixPlot/mixPlot.py`: the pure tabular transforms
`aggregate_annual` and `percent_mix`, and the pie categorizer of
`update_pie`.

Machine floats are embedded exactly, without rounding or overflow.
Two value domains are used.  The tabular transforms are first
developed over `Option Rat`, where `none` stands for a non-finite
value; this identifies NaN with the signed infinities and is adequate
wherever only the finite/non-finite distinction is observable.  Where
the distinction among non-finite values is itself observable --
loading literal infinity text, and re-applying the percent transform
to a row that already holds infinities -- the IEEE-style domain
`PFloat` (finite rationals, signed infinities, NaN) is used; there the
pandas sum skips only NaN while infinities participate, so that
inf + -inf yields NaN.
-/

namespace Energy

/-- A raw spreadsheet cell: either a numeric value or a text value
(e.g. the placeholder "Not Available"). -/
inductive Cell where
  | num (q : ℚ)
  | text (s : String)
deriving DecidableEq

/-- Value of a decimal digit character, `none` on a non-digit. -/
def digitVal (c : Char) : Option ℕ :=
  if c.isDigit then some (c.toNat - 48) else none

/-- Value of a (possibly empty) run of decimal digits; `none` if some
character is not a digit.  The empty run has value 0. -/
def allDigitsVal (cs : List Char) : Option ℕ :=
  cs.foldl
    (fun acc c =>
      match acc, digitVal c with
      | some n, some d => some (10 * n + d)
      | _, _ => none)
    (some 0)

/-- Split a character list at the first dot, returning the part before
it and, when a dot is present, the part after it. -/
def splitDot : List Char → List Char × Option (List Char)
  | [] => ([], none)
  | c :: rest =>
    if c = '.' then ([], some rest)
    else
      let p := splitDot rest
      (c :: p.1, p.2)

/-- Parse an unsigned decimal literal, as accepted by `pd.to_numeric`
on strings (digits, optionally with a fractional part). -/
def parseUnsigned (cs : List Char) : Option ℚ :=
  match splitDot cs with
  | (ip, none) =>
    if ip.isEmpty then none else (allDigitsVal ip).map (fun n => (n : ℚ))
  | (ip, some fp) =>
    if ip.isEmpty && fp.isEmpty then none
    else
      match allDigitsVal ip, allDigitsVal fp with
      | some i, some f => some ((i : ℚ) + (f : ℚ) / (10 : ℚ) ^ fp.length)
      | _, _ => none

/-- Parse a signed decimal string; `none` models the NaN that
`pd.to_numeric(..., errors="coerce")` yields on unparseable text. -/
def parseDec (s : String) : Option ℚ :=
  match s.toList with
  | [] => none
  | c :: rest =>
    if c = '-' then (parseUnsigned rest).map (fun q => -q)
    else if c = '+' then parseUnsigned rest
    else parseUnsigned (c :: rest)

/-- `pd.to_numeric(col, errors="coerce")` on one cell: numbers pass
through, text is parsed, unparseable text becomes NaN (`none`). -/
def toNumericCell : Cell → Option ℚ
  | Cell.num q => some q
  | Cell.text s => parseDec s

/-- `pd.to_numeric(col, errors="coerce").fillna(0.0)` on one cell. -/
def coerceCell (c : Cell) : ℚ :=
  (toNumericCell c).getD 0

/-- One raw spreadsheet row after header remapping selected the ten
source columns of `columns_mapping` (plus the untouched Date column). -/
structure RawRow where
  date : String
  coal : Cell
  gasDry : Cell
  gasLiquid : Cell
  crudeOil : Cell
  nuclear : Cell
  hydro : Cell
  geothermal : Cell
  solar : Cell
  wind : Cell
  biomass : Cell
deriving DecidableEq

/-- One cleaned row of `ReadExcel.df_subset`: every source column has
been coerced to a number, the Date column is untouched. -/
structure LoadedRow where
  date : String
  coal : ℚ
  gasDry : ℚ
  gasLiquid : ℚ
  crudeOil : ℚ
  nuclear : ℚ
  hydro : ℚ
  geothermal : ℚ
  solar : ℚ
  wind : ℚ
  biomass : ℚ
deriving DecidableEq

/-- The source-column cells of a raw row, in `columns_mapping` order. -/
def RawRow.cells (r : RawRow) : List Cell :=
  [r.coal, r.gasDry, r.gasLiquid, r.crudeOil, r.nuclear,
   r.hydro, r.geothermal, r.solar, r.wind, r.biomass]

/-- The source-column values of a loaded row, in `columns_mapping` order. -/
def LoadedRow.values (r : LoadedRow) : List ℚ :=
  [r.coal, r.gasDry, r.gasLiquid, r.crudeOil, r.nuclear,
   r.hydro, r.geothermal, r.solar, r.wind, r.biomass]

/-- The per-row action of `ReadExcel._remap_dataFrame`: coerce every
source column, leave Date alone. -/
def remapRow (r : RawRow) : LoadedRow :=
  ⟨r.date, coerceCell r.coal, coerceCell r.gasDry, coerceCell r.gasLiquid,
   coerceCell r.crudeOil, coerceCell r.nuclear, coerceCell r.hydro,
   coerceCell r.geothermal, coerceCell r.solar, coerceCell r.wind,
   coerceCell r.biomass⟩

/-- The numeric content of a cell is non-negative (vacuously true for
unparseable text, which coerces to 0). -/
def cellNonneg (c : Cell) : Prop :=
  ∀ q : ℚ, toNumericCell c = some q → 0 ≤ q

/-- The SQLite database: named tables of loaded rows. -/
structure DB where
  tables : List (String × List LoadedRow)
deriving DecidableEq

/-- A database with no tables. -/
def DB.empty : DB := ⟨[]⟩

/-- Whether a table of the given name exists. -/
def DB.hasTable (db : DB) (n : String) : Bool :=
  db.tables.any (fun t => t.1 == n)

/-- `DROP TABLE IF EXISTS n` (the body of `_drop_table`, which names
the table "Mix"). -/
def dropTableIfExists (db : DB) (n : String) : DB :=
  ⟨db.tables.filter (fun t => t.1 != n)⟩

/-- `CREATE TABLE n (...)` (the body of `_create_newTable`, which
names the table "EnergyMix"): fails when the table already exists. -/
def createTable (db : DB) (n : String) : Except String DB :=
  if db.hasTable n then Except.error ("table " ++ n ++ " already exists")
  else Except.ok ⟨db.tables ++ [(n, [])]⟩

/-- `df.to_sql(n, conn, if_exists="append")` against a table whose
Date column is the primary key: appends the rows, failing on a
missing table or on a duplicated date. -/
def insertRows (db : DB) (n : String) (rows : List LoadedRow) : Except String DB :=
  match db.tables.find? (fun t => t.1 == n) with
  | none => Except.error ("no such table: " ++ n)
  | some t =>
    if (((t.2 ++ rows).map (fun r => r.date)).Nodup : Prop) then
      Except.ok ⟨db.tables.map (fun p => if p.1 == n then (p.1, p.2 ++ rows) else p)⟩
    else Except.error "UNIQUE constraint failed: EnergyMix.Date"

/-- Outcome of one run of `UpdateSQLite.__init__`: normal completion
with its console message, a `sys.exit` with an exit code and message,
or an uncaught sqlite3 exception. -/
inductive IngestResult where
  | ok (db : DB) (msg : String)
  | exited (code : ℕ) (msg : String) (db : DB)
  | raised (err : String) (db : DB)
deriving DecidableEq

/-- One run of `UpdateSQLite.__init__`: read the Excel file (exiting
with status 1 before any database connection when it is missing),
remap the frame, then drop table "Mix", create table "EnergyMix" and
bulk-insert.  The drop and create statements autocommit as DDL, so a
create failure keeps the dropped state; a failed insert is rolled
back when the process dies before `conn.commit()`. -/
def updateSQLite (fileName : String) (file : Option (List RawRow)) (db : DB) :
    IngestResult :=
  match file with
  | none =>
    IngestResult.exited 1 ("Error: The file " ++ fileName ++ " was not found.") db
  | some sheet =>
    let dfSubset := sheet.map remapRow
    let db1 := dropTableIfExists db "Mix"
    match createTable db1 "EnergyMix" with
    | Except.error e => IngestResult.raised e db1
    | Except.ok db2 =>
      match insertRows db2 "EnergyMix" dfSubset with
      | Except.error e => IngestResult.raised e db2
      | Except.ok db3 =>
        IngestResult.ok db3 "SQLite table EnergyMix updated successfully."

/-- A calendar date as used by the dashboard: the pandas datetime is
only ever inspected through `.dt.year`, and `pd.to_datetime(year,
format="%Y")` builds January 1 of the year. -/
structure MDate where
  year : ℕ
  month : ℕ
  day : ℕ
deriving DecidableEq

/-- The numeric columns of the dashboard frame (`load_data` dropped
CrudeOil), over the simplified domain: `none` embeds a non-finite
entry (`FVals` below is the full IEEE domain). -/
structure Vals where
  coal : Option ℚ
  gasDry : Option ℚ
  gasLiquid : Option ℚ
  nuclear : Option ℚ
  hydro : Option ℚ
  geothermal : Option ℚ
  solar : Option ℚ
  wind : Option ℚ
  biomass : Option ℚ
deriving DecidableEq

/-- The numeric columns of a frame row, in table order. -/
def Vals.toList (v : Vals) : List (Option ℚ) :=
  [v.coal, v.gasDry, v.gasLiquid, v.nuclear, v.hydro,
   v.geothermal, v.solar, v.wind, v.biomass]

/-- The all-NaN row that `percent_mix` produces from a zero-total row. -/
def noneVals : Vals :=
  ⟨none, none, none, none, none, none, none, none, none⟩

/-- One row of the dashboard frame. -/
structure Row where
  date : MDate
  vals : Vals
deriving DecidableEq

/-- The skipna sum over the simplified domain: `none` entries are
skipped and an all-`none` (or empty) sum is 0.  For frames holding no
infinities this is exactly the pandas skipna sum; `skipnaSum` below
is the full IEEE version, in which infinities participate. -/
def colSum (l : List (Option ℚ)) : ℚ :=
  (l.map (fun c => c.getD 0)).sum

/-- `df[numeric_cols].sum(axis=1)` on one row. -/
def Vals.total (v : Vals) : ℚ :=
  colSum v.toList

/-- One cell of `percent_mix`, over the simplified domain:
`df[col] / totals * 100`.  A non-finite cell stays non-finite;
division of a finite cell by a zero total is non-finite (`fcell`
below distinguishes the signed infinities from NaN). -/
def pcell (t : ℚ) (c : Option ℚ) : Option ℚ :=
  match c with
  | none => none
  | some x => if t = 0 then none else some (x / t * 100)

/-- `percent_mix` on one row: every numeric column divided by the
row total and scaled to a percentage. -/
def percentVals (v : Vals) : Vals :=
  let t := v.total
  ⟨pcell t v.coal, pcell t v.gasDry, pcell t v.gasLiquid, pcell t v.nuclear,
   pcell t v.hydro, pcell t v.geothermal, pcell t v.solar, pcell t v.wind,
   pcell t v.biomass⟩

/-- `percent_mix` on a frame (row-wise; the Date column is kept). -/
def percentMix (df : List Row) : List Row :=
  df.map (fun r => ⟨r.date, percentVals r.vals⟩)

/-- `df["Date"].dt.year` on one row. -/
def yearKey (r : Row) : ℕ :=
  r.date.year

/-- Insert a year into a strictly ascending list of years, keeping it
strictly ascending (duplicates collapse). -/
def insertYear (y : ℕ) : List ℕ → List ℕ
  | [] => [y]
  | x :: xs =>
    if y < x then y :: x :: xs
    else if y = x then x :: xs
    else x :: insertYear y xs

/-- The sorted distinct group keys of `df.groupby("Year")` (pandas
groups are sorted ascending by key). -/
def sortedYears (l : List ℕ) : List ℕ :=
  l.foldr insertYear []

/-- `groupby(...).sum()` on one numeric column of a group: skipna
column sum, always a finite number. -/
def sumCell (rows : List Vals) (f : Vals → Option ℚ) : Option ℚ :=
  some (colSum (rows.map f))

/-- `groupby(...).sum(numeric_only=True)` on one group of rows. -/
def groupSum (rows : List Vals) : Vals :=
  ⟨sumCell rows (fun v => v.coal), sumCell rows (fun v => v.gasDry),
   sumCell rows (fun v => v.gasLiquid), sumCell rows (fun v => v.nuclear),
   sumCell rows (fun v => v.hydro), sumCell rows (fun v => v.geothermal),
   sumCell rows (fun v => v.solar), sumCell rows (fun v => v.wind),
   sumCell rows (fun v => v.biomass)⟩

/-- `aggregate_annual`: group the frame by calendar year, sum the
numeric columns per group, and date each output row January 1 of its
year; pandas emits the groups in ascending year order. -/
def aggregateAnnual (df : List Row) : List Row :=
  (sortedYears (df.map yearKey)).map (fun y =>
    ⟨⟨y, 1, 1⟩, groupSum ((df.filter (fun r => yearKey r == y)).map Row.vals)⟩)

/-- `totals.get(key, 0)` on the per-column totals of `update_pie`. -/
def tget (t : List (String × ℚ)) (k : String) : ℚ :=
  ((t.find? (fun p => p.1 == k)).map (fun p => p.2)).getD 0

/-- The `pie_data` dictionary of `update_pie`: six fixed categories
bucketing the source columns, absent columns defaulting to 0. -/
def pieData (t : List (String × ℚ)) : List (String × ℚ) :=
  [("Gas", tget t "GasDry" + tget t "GasLiquid"),
   ("Coal", tget t "Coal"),
   ("Nuclear", tget t "Nuclear"),
   ("Wind", tget t "Wind"),
   ("Solar", tget t "Solar"),
   ("All Others", tget t "Hydro" + tget t "Geothermal" + tget t "Biomass")]

/-- `df_year.drop(columns=["Date", "Year"]).sum()` in `update_pie`:
per-column totals of the selected year, keyed by column name. -/
def totalsOf (df : List Row) (y : ℕ) : List (String × ℚ) :=
  let rows := (df.filter (fun r => yearKey r == y)).map Row.vals
  [("Coal", colSum (rows.map (fun v => v.coal))),
   ("GasDry", colSum (rows.map (fun v => v.gasDry))),
   ("GasLiquid", colSum (rows.map (fun v => v.gasLiquid))),
   ("Nuclear", colSum (rows.map (fun v => v.nuclear))),
   ("Hydro", colSum (rows.map (fun v => v.hydro))),
   ("Geothermal", colSum (rows.map (fun v => v.geothermal))),
   ("Solar", colSum (rows.map (fun v => v.solar))),
   ("Wind", colSum (rows.map (fun v => v.wind))),
   ("Biomass", colSum (rows.map (fun v => v.biomass)))]

/-- The data computation of `update_pie` for a selected year. -/
def updatePie (df : List Row) (y : ℕ) : List (String × ℚ) :=
  pieData (totalsOf df y)

/-- A one-row spreadsheet with all-numeric cells. -/
def sampleSheet : List RawRow :=
  [⟨"1973-01", Cell.num 1, Cell.num 2, Cell.num 3, Cell.num 4, Cell.num 5,
    Cell.num 6, Cell.num 7, Cell.num 8, Cell.num 9, Cell.num 10⟩]

/-- The cleaned row `remapRow` produces from `sampleSheet`. -/
def sampleLoaded : LoadedRow :=
  ⟨"1973-01", 1, 2, 3, 4, 5, 6, 7, 8, 9, 10⟩

/-- The database state after one successful ingestion of `sampleSheet`. -/
def sampleDB : DB :=
  ⟨[("EnergyMix", [sampleLoaded])]⟩

/-- A raw row whose Coal cell holds a negative number. -/
def badRow : RawRow :=
  ⟨"1973-01", Cell.num (-1), Cell.num 0, Cell.num 0, Cell.num 0, Cell.num 0,
   Cell.num 0, Cell.num 0, Cell.num 0, Cell.num 0, Cell.num 0⟩

/-- A raw row with non-negative numeric cells. -/
def goodRow : RawRow :=
  ⟨"1973-01", Cell.num 2, Cell.num 0, Cell.num 0, Cell.num 0, Cell.num 0,
   Cell.num 0, Cell.num 0, Cell.num 0, Cell.num 0, Cell.num 0⟩

/-- A dashboard row of year `y` and month `m` whose Coal column holds
`c` and whose other columns hold 0. -/
def coalRow (y m : ℕ) (c : ℚ) : Row :=
  ⟨⟨y, m, 1⟩, ⟨some c, some 0, some 0, some 0, some 0, some 0, some 0,
    some 0, some 0⟩⟩

/-- Twelve monthly rows of the year 2000, Coal running 1 through 12. -/
def month12Df : List Row :=
  [coalRow 2000 1 1, coalRow 2000 2 2, coalRow 2000 3 3, coalRow 2000 4 4,
   coalRow 2000 5 5, coalRow 2000 6 6, coalRow 2000 7 7, coalRow 2000 8 8,
   coalRow 2000 9 9, coalRow 2000 10 10, coalRow 2000 11 11, coalRow 2000 12 12]

/-- The field-wise sums of `month12Df`. -/
def month12Sum : Vals :=
  ⟨some 78, some 0, some 0, some 0, some 0, some 0, some 0, some 0, some 0⟩

/-- Two months of the year 2020 with different source mixes: January
has Coal 1 and GasDry 1, February has Coal 3 and GasDry 1. -/
def twoMonthDf : List Row :=
  [⟨⟨2020, 1, 1⟩, ⟨some 1, some 1, some 0, some 0, some 0, some 0, some 0,
     some 0, some 0⟩⟩,
   ⟨⟨2020, 2, 1⟩, ⟨some 3, some 1, some 0, some 0, some 0, some 0, some 0,
     some 0, some 0⟩⟩]

/-- A single-year frame carrying the categorizer example of the spec:
gas_dry 10, gas_liquid 5, coal 20, nuclear 8, wind 3, solar 2,
hydro 1, geothermal 0, biomass 1. -/
def pieExampleDf : List Row :=
  [⟨⟨2020, 1, 1⟩, ⟨some 20, some 10, some 5, some 8, some 1, some 0, some 2,
     some 3, some 1⟩⟩]

/-- A row of defined values with nonzero total (Coal 1, GasDry 3). -/
def c2Vals : Vals :=
  ⟨some 1, some 3, some 0, some 0, some 0, some 0, some 0, some 0, some 0⟩

end Energy

/-!  The full IEEE value domain.  -/

namespace Energy

/-- An IEEE-style double value: a finite number (exact rational,
rounding and overflow not modeled), a signed infinity, or NaN. -/
inductive PFloat where
  | fin (q : ℚ)
  | inf (pos : Bool)
  | nan
deriving DecidableEq

/-- Whether the value is NaN. -/
def PFloat.isNaN : PFloat → Bool
  | PFloat.nan => true
  | _ => false

/-- Whether the value is finite. -/
def PFloat.isFinite : PFloat → Bool
  | PFloat.fin _ => true
  | _ => false

/-- IEEE addition: NaN absorbs, infinities of opposite sign give NaN,
an infinity absorbs a finite value. -/
def pfAdd : PFloat → PFloat → PFloat
  | PFloat.nan, _ => PFloat.nan
  | _, PFloat.nan => PFloat.nan
  | PFloat.inf a, PFloat.inf b => if a = b then PFloat.inf a else PFloat.nan
  | PFloat.inf a, PFloat.fin _ => PFloat.inf a
  | PFloat.fin _, PFloat.inf b => PFloat.inf b
  | PFloat.fin x, PFloat.fin y => PFloat.fin (x + y)

/-- IEEE division.  Zero is unsigned here, standing for the default
positive zero: a nonzero finite value divided by zero is the infinity
carrying the sign of the numerator, and an infinity divided by zero
keeps its sign; negative zero is not modeled. -/
def pfDiv : PFloat → PFloat → PFloat
  | PFloat.nan, _ => PFloat.nan
  | _, PFloat.nan => PFloat.nan
  | PFloat.inf _, PFloat.inf _ => PFloat.nan
  | PFloat.inf a, PFloat.fin y => if 0 ≤ y then PFloat.inf a else PFloat.inf (!a)
  | PFloat.fin _, PFloat.inf _ => PFloat.fin 0
  | PFloat.fin x, PFloat.fin y =>
    if y = 0 then
      if x = 0 then PFloat.nan
      else if 0 < x then PFloat.inf true else PFloat.inf false
    else PFloat.fin (x / y)

/-- Multiplication by the positive finite constant 100. -/
def pfMul100 : PFloat → PFloat
  | PFloat.nan => PFloat.nan
  | PFloat.inf a => PFloat.inf a
  | PFloat.fin x => PFloat.fin (x * 100)

/-- The pandas skipna sum over the IEEE domain: only NaN entries are
skipped, infinities participate (so inf + -inf yields NaN), and an
all-NaN or empty sum is 0. -/
def skipnaSum (l : List PFloat) : PFloat :=
  (l.filter (fun v => !v.isNaN)).foldl pfAdd (PFloat.fin 0)

/-- Lower-case an ASCII letter, used for the case-insensitive special
words of the pandas numeric parser. -/
def lowerChar (c : Char) : Char :=
  if 'A' ≤ c ∧ c ≤ 'Z' then Char.ofNat (c.toNat + 32) else c

/-- A nonempty all-digit run, as a number. -/
def parseNatDigits (cs : List Char) : Option ℕ :=
  if cs.isEmpty then none else allDigitsVal cs

/-- Split a character list at the first exponent marker e or E. -/
def splitExp : List Char → List Char × Option (List Char)
  | [] => ([], none)
  | c :: rest =>
    if c = 'e' ∨ c = 'E' then ([], some rest)
    else
      let p := splitExp rest
      (c :: p.1, p.2)

/-- An optionally signed exponent. -/
def parseExp (cs : List Char) : Option ℤ :=
  match cs with
  | [] => none
  | c :: rest =>
    if c = '-' then (parseNatDigits rest).map (fun n => -(n : ℤ))
    else if c = '+' then (parseNatDigits rest).map (fun n => (n : ℤ))
    else (parseNatDigits (c :: rest)).map (fun n => (n : ℤ))

/-- An unsigned decimal mantissa with an optional exponent part, as
accepted by the pandas numeric parser. -/
def parseSci (cs : List Char) : Option ℚ :=
  match splitExp cs with
  | (mant, none) => parseUnsigned mant
  | (mant, some ex) =>
    match parseUnsigned mant, parseExp ex with
    | some m, some e => some (m * (10 : ℚ) ^ e)
    | _, _ => none

/-- One unsigned token of the pandas numeric parser: the words inf,
infinity and nan (case-insensitive), or scientific notation; anything
else is unparseable and coerces to NaN. -/
def parseBody (pos : Bool) (cs : List Char) : PFloat :=
  let lb := cs.map lowerChar
  if lb = ['i', 'n', 'f'] ∨ lb = ['i', 'n', 'f', 'i', 'n', 'i', 't', 'y'] then
    PFloat.inf pos
  else if lb = ['n', 'a', 'n'] then PFloat.nan
  else
    match parseSci cs with
    | some q => PFloat.fin (if pos then q else -q)
    | none => PFloat.nan

/-- `pd.to_numeric(col, errors="coerce")` on a text cell, over the
IEEE domain: an optional sign followed by an infinity or NaN word or
a scientific-notation number; unparseable text becomes NaN. -/
def toNumericText (s : String) : PFloat :=
  match s.toList with
  | [] => PFloat.nan
  | c :: rest =>
    if c = '-' then parseBody false rest
    else if c = '+' then parseBody true rest
    else parseBody true (c :: rest)

/-- `pd.to_numeric(col, errors="coerce")` on one cell, over the IEEE
domain. -/
def toNumericCellF : Cell → PFloat
  | Cell.num q => PFloat.fin q
  | Cell.text s => toNumericText s

/-- `pd.to_numeric(col, errors="coerce").fillna(0.0)` on one cell,
over the IEEE domain: `fillna` replaces only NaN, so an infinity
persists into the loaded table. -/
def coerceCellF (c : Cell) : PFloat :=
  if (toNumericCellF c).isNaN then PFloat.fin 0 else toNumericCellF c

/-- The loaded source columns of one row of `_remap_dataFrame`, over
the IEEE domain. -/
def remapRowF (r : RawRow) : List PFloat :=
  r.cells.map coerceCellF

/-- The numeric columns of a dashboard frame row over the IEEE
domain. -/
structure FVals where
  coal : PFloat
  gasDry : PFloat
  gasLiquid : PFloat
  nuclear : PFloat
  hydro : PFloat
  geothermal : PFloat
  solar : PFloat
  wind : PFloat
  biomass : PFloat
deriving DecidableEq

/-- The numeric columns of an IEEE-domain row, in table order. -/
def FVals.toList (v : FVals) : List PFloat :=
  [v.coal, v.gasDry, v.gasLiquid, v.nuclear, v.hydro,
   v.geothermal, v.solar, v.wind, v.biomass]

/-- `df[numeric_cols].sum(axis=1)` on one row, over the IEEE domain. -/
def FVals.total (v : FVals) : PFloat :=
  skipnaSum v.toList

/-- One cell of `percent_mix` over the IEEE domain:
`df[col] / totals * 100`. -/
def fcell (t c : PFloat) : PFloat :=
  pfMul100 (pfDiv c t)

/-- `percent_mix` on one row over the IEEE domain. -/
def percentFVals (v : FVals) : FVals :=
  let t := v.total
  ⟨fcell t v.coal, fcell t v.gasDry, fcell t v.gasLiquid, fcell t v.nuclear,
   fcell t v.hydro, fcell t v.geothermal, fcell t v.solar, fcell t v.wind,
   fcell t v.biomass⟩

/-- One row of the dashboard frame over the IEEE domain. -/
structure FRow where
  date : MDate
  vals : FVals
deriving DecidableEq

/-- `percent_mix` on a frame over the IEEE domain. -/
def percentMixF (df : List FRow) : List FRow :=
  df.map (fun r => ⟨r.date, percentFVals r.vals⟩)

/-- One row with Coal 5 and GasDry -5: row total zero with cells of
mixed sign. -/
def c8Df : List FRow :=
  [⟨⟨2020, 1, 1⟩, ⟨PFloat.fin 5, PFloat.fin (-5), PFloat.fin 0, PFloat.fin 0,
     PFloat.fin 0, PFloat.fin 0, PFloat.fin 0, PFloat.fin 0, PFloat.fin 0⟩⟩]

end Energy

/-!  Helper lemmas: sorted distinct group keys.  -/

namespace Energy

theorem mem_insertYear (a y : ℕ) (l : List ℕ) :
    a ∈ insertYear y l ↔ a = y ∨ a ∈ l := by
  induction l with
  | nil => simp [insertYear]
  | cons x xs ih =>
    by_cases h1 : y < x
    · simp only [insertYear, if_pos h1, List.mem_cons]
    · by_cases h2 : y = x
      · subst h2
        simp only [insertYear, if_neg h1, eq_self_iff_true, if_true, List.mem_cons]
        tauto
      · simp only [insertYear, if_neg h1, if_neg h2, List.mem_cons, ih]
        tauto

theorem pairwise_insertYear (y : ℕ) (l : List ℕ) (h : l.Pairwise (· < ·)) :
    (insertYear y l).Pairwise (· < ·) := by
  induction l with
  | nil => simp [insertYear]
  | cons x xs ih =>
    rw [List.pairwise_cons] at h
    by_cases h1 : y < x
    · simp only [insertYear, if_pos h1]
      refine List.Pairwise.cons ?_ (List.Pairwise.cons h.1 h.2)
      intro b hb
      rcases List.mem_cons.mp hb with rfl | hb
      · exact h1
      · exact lt_trans h1 (h.1 b hb)
    · by_cases h2 : y = x
      · subst h2
        simp only [insertYear, if_neg h1, eq_self_iff_true, if_true]
        exact List.Pairwise.cons h.1 h.2
      · simp only [insertYear, if_neg h1, if_neg h2]
        refine List.Pairwise.cons ?_ (ih h.2)
        intro b hb
        rcases (mem_insertYear b y xs).mp hb with rfl | hb
        · omega
        · exact h.1 b hb

theorem sortedYears_pairwise (l : List ℕ) : (sortedYears l).Pairwise (· < ·) := by
  induction l with
  | nil => simp [sortedYears]
  | cons x xs ih =>
    simpa [sortedYears] using pairwise_insertYear x (sortedYears xs) ih

theorem mem_sortedYears (a : ℕ) (l : List ℕ) : a ∈ sortedYears l ↔ a ∈ l := by
  induction l with
  | nil => simp [sortedYears]
  | cons x xs ih =>
    simp only [sortedYears, List.foldr_cons] at ih ⊢
    rw [mem_insertYear, ih, List.mem_cons]

theorem insertYear_of_forall_lt (y : ℕ) (l : List ℕ) (h : ∀ b ∈ l, y < b) :
    insertYear y l = y :: l := by
  cases l with
  | nil => rfl
  | cons x xs => simp [insertYear, h x (List.mem_cons_self x xs)]

theorem sortedYears_of_pairwise (l : List ℕ) (h : l.Pairwise (· < ·)) :
    sortedYears l = l := by
  induction l with
  | nil => rfl
  | cons x xs ih =>
    rw [List.pairwise_cons] at h
    have h2 := ih h.2
    simp only [sortedYears, List.foldr_cons] at h2 ⊢
    rw [h2, insertYear_of_forall_lt x xs h.1]

theorem filter_beq_of_pairwise (l : List ℕ) (y : ℕ) (hl : l.Pairwise (· < ·))
    (hy : y ∈ l) : l.filter (fun a => a == y) = [y] := by
  induction l with
  | nil => simp at hy
  | cons x xs ih =>
    rw [List.pairwise_cons] at hl
    rcases List.mem_cons.mp hy with rfl | hmem
    · have hnil : xs.filter (fun a => a == y) = [] := by
        rw [List.filter_eq_nil_iff]
        intro a ha
        have hlt := hl.1 a ha
        simp only [beq_iff_eq]
        omega
      simp [List.filter_cons, hnil]
    · have hne : ((x == y) = true) → False := by
        have hlt := hl.1 y hmem
        simp only [beq_iff_eq]
        omega
      simp only [List.filter_cons, beq_iff_eq]
      rw [if_neg (by simpa [beq_iff_eq] using hne)]
      exact ih hl.2 hmem

end Energy

/-!  Helper lemmas: the percent transform.  -/

namespace Energy

theorem pcell_zero (c : Option ℚ) : pcell 0 c = none := by
  cases c <;> simp [pcell]

theorem pcell_getD (t : ℚ) (ht : t ≠ 0) (c : Option ℚ) :
    (pcell t c).getD 0 = c.getD 0 / t * 100 := by
  cases c with
  | none => simp [pcell]
  | some x => simp [pcell, ht]

theorem pcell_map (t : ℚ) (ht : t ≠ 0) (c : Option ℚ) :
    pcell t c = c.map (fun x => x / t * 100) := by
  cases c with
  | none => rfl
  | some x => simp [pcell, ht]

theorem toList_percentVals (v : Vals) :
    (percentVals v).toList = v.toList.map (pcell v.total) := by
  obtain ⟨c1, c2, c3, c4, c5, c6, c7, c8, c9⟩ := v
  rfl

theorem toList_inj (v w : Vals) (h : v.toList = w.toList) : v = w := by
  obtain ⟨c1, c2, c3, c4, c5, c6, c7, c8, c9⟩ := v
  obtain ⟨d1, d2, d3, d4, d5, d6, d7, d8, d9⟩ := w
  simp only [Vals.toList, List.cons.injEq, and_true] at h
  obtain ⟨rfl, rfl, rfl, rfl, rfl, rfl, rfl, rfl, rfl⟩ := h
  rfl

theorem sum_map_div_mul (l : List (Option ℚ)) (t : ℚ) :
    (l.map (fun c => c.getD 0 / t * 100)).sum
      = (l.map (fun c => c.getD 0)).sum / t * 100 := by
  induction l with
  | nil => simp
  | cons a l ih =>
    simp only [List.map_cons, List.sum_cons, ih]
    ring

theorem total_percentVals (v : Vals) (ht : v.total ≠ 0) :
    (percentVals v).total = 100 := by
  show colSum (percentVals v).toList = 100
  rw [toList_percentVals, colSum, List.map_map]
  have hcong : (v.toList.map ((fun c => c.getD 0) ∘ pcell v.total))
      = v.toList.map (fun c => c.getD 0 / v.total * 100) :=
    List.map_congr_left (fun c _ => pcell_getD v.total ht c)
  rw [hcong, sum_map_div_mul]
  have : (v.toList.map (fun c => c.getD 0)).sum = v.total := rfl
  rw [this, div_self ht]
  norm_num

theorem percentVals_zero (v : Vals) (h : v.total = 0) :
    percentVals v = noneVals := by
  apply toList_inj
  rw [toList_percentVals, h]
  obtain ⟨c1, c2, c3, c4, c5, c6, c7, c8, c9⟩ := v
  simp [Vals.toList, pcell_zero, noneVals]

theorem total_noneVals : noneVals.total = 0 := by
  simp [noneVals, Vals.total, colSum, Vals.toList]

end Energy

/-!  Helper lemmas: annual aggregation.  -/

namespace Energy

theorem agg_years (df : List Row) :
    (aggregateAnnual df).map yearKey = sortedYears (df.map yearKey) := by
  show ((sortedYears (df.map yearKey)).map _).map yearKey = sortedYears (df.map yearKey)
  rw [List.map_map]
  have : (yearKey ∘ fun y =>
      (⟨⟨y, 1, 1⟩, groupSum ((df.filter (fun r => yearKey r == y)).map Row.vals)⟩ : Row))
      = id := rfl
  rw [this, List.map_id]

theorem groupSum_single (rows : List Vals) :
    groupSum [groupSum rows] = groupSum rows := by
  simp [groupSum, sumCell, colSum]

theorem aggregateAnnual_idem (df : List Row) :
    aggregateAnnual (aggregateAnnual df) = aggregateAnnual df := by
  have hpw : (sortedYears (df.map yearKey)).Pairwise (· < ·) := sortedYears_pairwise _
  have key : aggregateAnnual (aggregateAnnual df)
      = (sortedYears ((aggregateAnnual df).map yearKey)).map (fun y =>
          ⟨⟨y, 1, 1⟩, groupSum (((aggregateAnnual df).filter
            (fun r => yearKey r == y)).map Row.vals)⟩) := rfl
  rw [key, agg_years df, sortedYears_of_pairwise _ hpw]
  have expand : aggregateAnnual df
      = (sortedYears (df.map yearKey)).map (fun y =>
          ⟨⟨y, 1, 1⟩, groupSum ((df.filter (fun r => yearKey r == y)).map Row.vals)⟩) := rfl
  conv_rhs => rw [expand]
  apply List.map_congr_left
  intro y hy
  have hfil : (aggregateAnnual df).filter (fun r => yearKey r == y)
      = [⟨⟨y, 1, 1⟩, groupSum ((df.filter (fun r => yearKey r == y)).map Row.vals)⟩] := by
    rw [expand, List.filter_map]
    have hcomp : ((fun r => yearKey r == y) ∘ fun z =>
        (⟨⟨z, 1, 1⟩, groupSum ((df.filter (fun r => yearKey r == z)).map Row.vals)⟩ : Row))
        = fun z => z == y := rfl
    rw [hcomp, filter_beq_of_pairwise _ y hpw hy]
    rfl
  rw [hfil]
  simp only [List.map_cons, List.map_nil]
  rw [groupSum_single]

end Energy

/-!  Claim theorems.  -/

namespace Energy

/-- C1: the claim says running the full ingestion twice in succession
against the same input and database succeeds both times and leaves the
table unchanged.  The code instead drops table "Mix" while creating
and filling table "EnergyMix", so the first run succeeds but the second
run raises "table EnergyMix already exists" (an uncaught
sqlite3.OperationalError) instead of replacing the table. -/
theorem c1_second_ingestion_raises :
    updateSQLite "Mix.xlsx" (some sampleSheet) DB.empty
      = IngestResult.ok sampleDB "SQLite table EnergyMix updated successfully."
    ∧ updateSQLite "Mix.xlsx" (some sampleSheet) sampleDB
      = IngestResult.raised "table EnergyMix already exists" sampleDB := by
  exact ⟨by decide, by decide⟩

/-- C2 (counterexample): on a row whose total is zero, `percent_mix`
does not yield 0.0 in every numeric field; it divides by zero and
yields a non-finite value (embedded as `none`) in every field. -/
theorem c2_zero_total_counterexample :
    Vals.total ⟨some 0, some 0, some 0, some 0, some 0, some 0, some 0,
        some 0, some 0⟩ = 0
    ∧ (percentVals ⟨some 0, some 0, some 0, some 0, some 0, some 0, some 0,
        some 0, some 0⟩).coal = none
    ∧ (none : Option ℚ) ≠ some (0 : ℚ) := by
  have hz : Vals.total ⟨some 0, some 0, some 0, some 0, some 0, some 0, some 0,
      some 0, some 0⟩ = 0 := by
    norm_num [Vals.total, colSum, Vals.toList]
  refine ⟨hz, ?_, by simp⟩
  rw [percentVals_zero _ hz]
  rfl

/-- C2 (amended): on any row, when the row total is nonzero every
numeric value v becomes v / total * 100 and the transformed fields sum
to exactly 100 (exact-rational embedding of the floating tolerance);
when the row total is zero every transformed field is non-finite
(NaN, embedded `none`), not 0.0. -/
theorem c2_percent_mix_normalizes (v : Vals) :
    (v.total ≠ 0 →
      (percentVals v).total = 100
      ∧ (percentVals v).toList
          = v.toList.map (Option.map (fun x => x / v.total * 100)))
    ∧ (v.total = 0 → percentVals v = noneVals) := by
  constructor
  · intro h
    refine ⟨total_percentVals v h, ?_⟩
    rw [toList_percentVals]
    exact List.map_congr_left (fun c _ => pcell_map v.total h c)
  · exact percentVals_zero v

/-- C2 (witness): a concrete row with total 4 has nonzero total and
its transformed fields sum to 100. -/
theorem c2_percent_mix_normalizes_witness :
    Vals.total c2Vals ≠ 0 ∧ Vals.total (percentVals c2Vals) = 100 := by
  have h4 : Vals.total c2Vals = 4 := by
    norm_num [Vals.total, colSum, Vals.toList, c2Vals]
  have hne : Vals.total c2Vals ≠ 0 := by rw [h4]; norm_num
  exact ⟨hne, ((c2_percent_mix_normalizes c2Vals).1 hne).1⟩

/-- C3: annual aggregation and mix-fraction normalization do not
commute.  On two months of 2020 with mixes (1,1) and (3,1),
aggregate-then-percent yields Coal 200/3 percent of the annual total
while percent-then-aggregate yields Coal 125 (a sum of two monthly
percentages), so the two orders differ. -/
theorem c3_aggregation_normalization_noncommute :
    percentMix (aggregateAnnual twoMonthDf)
      ≠ aggregateAnnual (percentMix twoMonthDf) := by
  norm_num [percentMix, aggregateAnnual, sortedYears, insertYear, yearKey, twoMonthDf,
    groupSum, sumCell, colSum, percentVals, pcell, Vals.total, Vals.toList, List.filter]

/-- C4: `aggregate_annual` emits rows whose years are strictly
ascending (hence one row per calendar year), a year appears in the
output iff it appears in the input, every output row is dated
January 1 of its year and carries the field-wise sums of the
input rows of that year, and twelve monthly rows of the year 2000 aggregate to the
single row of their field-wise sums. -/
theorem c4_aggregate_annual_contract (df : List Row) :
    ((aggregateAnnual df).map yearKey).Pairwise (· < ·)
    ∧ (∀ y : ℕ, y ∈ (aggregateAnnual df).map yearKey ↔ y ∈ df.map yearKey)
    ∧ (∀ r ∈ aggregateAnnual df,
        r.date.month = 1 ∧ r.date.day = 1
        ∧ r.vals = groupSum ((df.filter
            (fun x => yearKey x == r.date.year)).map Row.vals))
    ∧ aggregateAnnual month12Df = [⟨⟨2000, 1, 1⟩, month12Sum⟩] := by
  refine ⟨?_, ?_, ?_, ?_⟩
  · rw [agg_years]
    exact sortedYears_pairwise _
  · intro y
    rw [agg_years, mem_sortedYears]
  · intro r hr
    have expand : aggregateAnnual df
        = (sortedYears (df.map yearKey)).map (fun y =>
            ⟨⟨y, 1, 1⟩, groupSum ((df.filter
              (fun x => yearKey x == y)).map Row.vals)⟩) := rfl
    rw [expand] at hr
    obtain ⟨y, hy, rfl⟩ := List.mem_map.mp hr
    exact ⟨rfl, rfl, rfl⟩
  · norm_num [aggregateAnnual, sortedYears, insertYear, yearKey, month12Df, coalRow,
      groupSum, sumCell, colSum, month12Sum, List.filter]

/-- C4 (witness): the single output row of the twelve-month example,
which the theorem shows is a member of the aggregate, is dated
January 1 and carries the field-wise sums of the year 2000 group. -/
theorem c4_aggregate_annual_contract_witness :
    (⟨⟨2000, 1, 1⟩, month12Sum⟩ : Row).date.month = 1
    ∧ (⟨⟨2000, 1, 1⟩, month12Sum⟩ : Row).vals
        = groupSum ((month12Df.filter (fun x =>
            yearKey x == (⟨⟨2000, 1, 1⟩, month12Sum⟩ : Row).date.year)).map Row.vals) := by
  have hagg := (c4_aggregate_annual_contract month12Df).2.2.2
  have hmem : (⟨⟨2000, 1, 1⟩, month12Sum⟩ : Row) ∈ aggregateAnnual month12Df := by
    rw [hagg]
    exact List.mem_singleton.mpr rfl
  have h := (c4_aggregate_annual_contract month12Df).2.2.1 _ hmem
  exact ⟨h.1, h.2.2⟩

/-- C5: the loader coercion passes every numeric cell through
unchanged, maps a text cell to its parsed value or to 0.0 when
unparseable, applies this to every selected source column of a row,
and in particular maps "Not Available" to 0.0 and "12.34" to 12.34. -/
theorem c5_coercion_policy :
    (∀ q : ℚ, coerceCell (Cell.num q) = q)
    ∧ (∀ s : String, coerceCell (Cell.text s) = (parseDec s).getD 0)
    ∧ (∀ r : RawRow, (remapRow r).values = r.cells.map coerceCell)
    ∧ coerceCell (Cell.text "Not Available") = 0
    ∧ coerceCell (Cell.text "12.34") = 617 / 50 := by
  refine ⟨fun q => rfl, fun s => rfl, fun r => rfl, by decide, ?_⟩
  simp [coerceCell, toNumericCell, parseDec, parseUnsigned, splitDot, allDigitsVal,
    digitVal]
  norm_num

/-- C6 (counterexample): the loader forces neither non-negativity nor
finiteness: a spreadsheet cell holding -1 loads as the negative field
value -1, and the text cell "inf", which `pd.to_numeric` parses to
positive infinity and `fillna(0.0)` leaves alone, loads as a
non-finite field. -/
theorem c6_loader_counterexample :
    (remapRow badRow).coal = -1 ∧ ¬ (0 ≤ (remapRow badRow).coal)
    ∧ coerceCellF (Cell.text "inf") = PFloat.inf true
    ∧ (PFloat.inf true).isFinite = false := by
  refine ⟨?_, ?_, ?_, rfl⟩
  · norm_num [remapRow, coerceCell, toNumericCell, badRow]
  · norm_num [remapRow, coerceCell, toNumericCell, badRow]
  · decide

/-- C6 (amended): after loading, every production field is a defined,
non-null value (the coercion never yields NaN), and every finite
numeric source value passes through unchanged, so a field is
non-negative exactly when its finite source value is; finiteness and
non-negativity are not guaranteed in general. -/
theorem c6_loaded_fields_not_null (r : RawRow) :
    (∀ v ∈ remapRowF r, v.isNaN = false)
    ∧ ∀ c ∈ r.cells, ∀ q : ℚ, toNumericCellF c = PFloat.fin q →
        coerceCellF c = PFloat.fin q := by
  constructor
  · intro v hv
    simp only [remapRowF, List.mem_map] at hv
    obtain ⟨c, -, rfl⟩ := hv
    unfold coerceCellF
    by_cases h : (toNumericCellF c).isNaN
    · rw [if_pos h]
      rfl
    · simp only [if_neg h]
      simpa using h
  · intro c _ q hq
    unfold coerceCellF
    rw [hq]
    rfl

/-- C6 (witness): the cell holding 2 in `goodRow` loads as the
non-NaN value 2 itself. -/
theorem c6_loaded_fields_not_null_witness :
    (coerceCellF (Cell.num 2)).isNaN = false
    ∧ coerceCellF (Cell.num 2) = PFloat.fin 2 := by
  have h := c6_loaded_fields_not_null goodRow
  refine ⟨h.1 (coerceCellF (Cell.num 2)) ?_, h.2 (Cell.num 2) ?_ 2 rfl⟩
  · exact List.mem_map_of_mem _ (by simp [RawRow.cells, goodRow])
  · simp [RawRow.cells, goodRow]

/-- C7: when the input spreadsheet is missing, ingestion exits with
status 1 and the file-not-found message before any database
connection is opened, leaving the database untouched. -/
theorem c7_missing_file_exits_before_mutation (fileName : String) (db : DB) :
    updateSQLite fileName none db
      = IngestResult.exited 1
          ("Error: The file " ++ fileName ++ " was not found.") db := rfl

/-- C8: `percent_mix` is not idempotent.  On the single row with
Coal 5 and GasDry -5 the row total is zero, so one application yields
(+inf, -inf, NaN, ...); the second application sums that row to
inf + -inf = NaN (the skipna sum skips only the NaN cells), so every
field divides by NaN and the result is all-NaN -- different from the
single application, so the duplicated application in the plot
callback changes the output on such inputs. -/
theorem c8_double_application_differs :
    percentMixF (percentMixF c8Df) ≠ percentMixF c8Df := by
  norm_num [percentMixF, percentFVals, fcell, pfDiv, pfMul100, pfAdd, FVals.total,
    FVals.toList, skipnaSum, PFloat.isNaN, c8Df, List.filter]
  decide

/-- C9: the pie categorizer emits exactly the six categories Gas,
Coal, Nuclear, Wind, Solar and All Others, with Gas the sum of the
two gas columns and All Others the sum of hydro, geothermal and
biomass, any absent column defaulting to 0; on the example row of the spec
the output is Gas 15, Coal 20, Nuclear 8, Wind 3, Solar 2,
All Others 2. -/
theorem c9_pie_categories (t : List (String × ℚ)) :
    (pieData t).map (fun p => p.1)
      = ["Gas", "Coal", "Nuclear", "Wind", "Solar", "All Others"]
    ∧ tget (pieData t) "Gas" = tget t "GasDry" + tget t "GasLiquid"
    ∧ tget (pieData t) "Coal" = tget t "Coal"
    ∧ tget (pieData t) "Nuclear" = tget t "Nuclear"
    ∧ tget (pieData t) "Wind" = tget t "Wind"
    ∧ tget (pieData t) "Solar" = tget t "Solar"
    ∧ tget (pieData t) "All Others"
        = tget t "Hydro" + tget t "Geothermal" + tget t "Biomass"
    ∧ tget (pieData ([] : List (String × ℚ))) "Solar" = 0
    ∧ updatePie pieExampleDf 2020
        = [("Gas", 15), ("Coal", 20), ("Nuclear", 8), ("Wind", 3), ("Solar", 2),
           ("All Others", 2)] := by
  refine ⟨rfl, ?_, ?_, ?_, ?_, ?_, ?_, ?_, ?_⟩
  · simp [tget, pieData]
  · simp [tget, pieData]
  · simp [tget, pieData]
  · simp [tget, pieData]
  · simp [tget, pieData]
  · simp [tget, pieData]
  · simp [tget, pieData]
  · simp [updatePie, pieData, totalsOf, tget, pieExampleDf, yearKey, colSum, List.filter]
    norm_num

/-- C10: `aggregate_annual` is idempotent — applied to its own output
it returns the same rows, because each output row is already the only
row of its calendar year and is dated January 1, so the duplicated
annual-aggregation step in the callback is output-preserving. -/
theorem c10_aggregate_annual_idempotent (df : List Row) :
    aggregateAnnual (aggregateAnnual df) = aggregateAnnual df :=
  aggregateAnnual_idem df

end Energy

